import Mathlib

/-!
Verification development for the linkedin-worker repository.

The definitions below are a shallow embedding of the JavaScript source:
pure string/page inspection functions are translated directly; stateful
browser interaction is modelled by explicit environments (oracles giving
the page state observed at each await point) and by traces of the actions
the code performs.  Polling loops are embedded with an explicit fuel
parameter counting the remaining iterations before the overall timeout.
-/

/-- The apostrophe character, used inside several indicator phrases. -/
def apos : String := "\u0027"

/-- `isPrefixCh pat s` is true when `pat` is a prefix of `s` (on char lists). -/
def isPrefixCh : List Char → List Char → Bool
  | [], _ => true
  | _ :: _, [] => false
  | a :: as, b :: bs => a == b && isPrefixCh as bs

/-- `hasSubAux pat s` is true when `pat` occurs as a contiguous substring of `s`. -/
def hasSubAux (pat : List Char) : List Char → Bool
  | [] => pat.isEmpty
  | c :: rest => isPrefixCh pat (c :: rest) || hasSubAux pat rest

/-- Embedding of JavaScript `s.toLowerCase()` (character-wise lowering,
structural so that concrete instances evaluate). -/
def strToLower (s : String) : String := String.mk (s.data.map Char.toLower)

/-- Embedding of JavaScript `s.includes(pat)` for strings. -/
def strIncludes (s pat : String) : Bool :=
  hasSubAux pat.toList s.toList

/-- A browser cookie, as returned by `context.cookies()`. -/
structure Cookie where
  name : String
  value : String
  deriving DecidableEq, Repr

/-- `cookies.find(c => c.name === n)` from the source. -/
def findCookie (cs : List Cookie) (n : String) : Option Cookie :=
  cs.find? (fun c => c.name == n)

/-- The observable state of the page at one moment: the text content of
`body`, the current URL, and which locators report `isVisible()`.  This is
exactly the information `detectChallengeType` and its siblings read. -/
structure Page where
  bodyText : String
  url : String
  visible : String → Bool

/-- A page with empty text, empty URL and nothing visible. -/
def blankPage : Page := ⟨"", "", fun _ => false⟩

/-- Challenge categories produced by `detectChallengeType` (the `type`
field strings of the source, as an inductive). -/
inductive CType
  | captcha
  | invalid_credentials
  | account_locked
  | app_approval
  | email_sms_2fa
  | authenticator_2fa
  | unknown_challenge
  | none
  deriving DecidableEq, Repr

/-- The `method` field attached to `email_sms_2fa` verdicts. -/
inductive TwoFAMethod
  | sms
  | email
  | unknown
  deriving DecidableEq, Repr

/-- A classifier verdict `{ type, indicator, method? }`. -/
structure Challenge where
  ctype : CType
  indicator : Option String
  method : Option TwoFAMethod
  deriving DecidableEq, Repr

/-- The captcha iframe locator of `detectChallengeType` (and of
`waitForCaptchaSolved`). -/
def captchaIframeSel : String :=
  "iframe[src*=\"captcha\"], iframe[src*=\"recaptcha\"], iframe[src*=\"hcaptcha\"], iframe[src*=\"arkose\"]"

/-- CAPTCHA text indicators (step 1 of `detectChallengeType`). -/
def captchaIndicators : List String :=
  [s!"prove you{apos}re human",
   "security verification required",
   "complete the security check",
   s!"verify you{apos}re not a robot"]

/-- Invalid-credential text indicators (step 2). -/
def invalidCredentialIndicators : List String :=
  [s!"that{apos}s not the right password",
   "wrong password",
   "incorrect password",
   "please check your password",
   s!"couldn{apos}t find a linkedin account",
   s!"couldn{apos}t find an account",
   "please enter a valid email"]

/-- Account-locked text indicators (step 3). -/
def accountLockedIndicators : List String :=
  ["account has been restricted",
   "your account has been temporarily restricted",
   s!"we{apos}ve restricted your account",
   "temporarily locked",
   "unusual activity detected",
   "account is temporarily restricted"]

/-- App-push-approval text indicators (step 4). -/
def appApprovalIndicators : List String :=
  ["approve this sign-in from your linkedin app",
   "open the linkedin app to confirm",
   "we sent a notification to your linkedin app",
   "approve from the linkedin app",
   "tap yes on the linkedin app",
   "check your linkedin app",
   s!"we{apos}ll send a push notification"]

/-- Email/SMS 2FA text indicators (step 5). -/
def emailSms2FAIndicators : List String :=
  ["enter the code we sent",
   "we sent a code to",
   "check your email for a code",
   "check your phone for a code",
   "enter the 6 digit code",
   "enter the 6-digit code",
   "verification code sent",
   s!"we{apos}ve sent a verification code"]

/-- Authenticator-app 2FA text indicators (step 6). -/
def authenticator2FAIndicators : List String :=
  ["authenticator app",
   "authentication app",
   "google authenticator",
   "microsoft authenticator",
   "enter the code from your authenticator"]

/-- The code-input selectors probed on a checkpoint page (step 7). -/
def otpDetectSelectors : List String :=
  ["input[name=\"pin\"]",
   "#input__phone_verification_pin",
   "#input__email_verification_pin",
   "[data-test=\"verification-code-input\"]",
   "input[placeholder*=\"code\" i]",
   "input[aria-label*=\"code\" i]",
   "input[maxlength=\"6\"]"]

/-- The approval-confirmation button locator probed on a checkpoint page. -/
def approveTapSel : String :=
  s!"button:has-text(\"I{apos}ve approved\"), button:has-text(\"Done\")"

/-- The send-code button locator probed on a generic security-check page. -/
def sendCodeSel : String :=
  "button:has-text(\"Send\"), button:has-text(\"Get code\")"

/-- First indicator phrase of a list found in the (lower-cased) page text,
mirroring the `for ... if (lowerText.includes(indicator)) return` loops. -/
def findMatch (lowerText : String) (inds : List String) : Option String :=
  inds.find? (fun ind => strIncludes lowerText ind)

/-- Embedding of `detectChallengeType` (part_000, lines 240-409): the
priority-ordered challenge classifier. -/
def detectChallengeType (p : Page) : Challenge :=
  let lowerText := strToLower p.bodyText
  let url := strToLower p.url
  if p.visible captchaIframeSel then
    ⟨CType.captcha, some "captcha_iframe", Option.none⟩
  else
    match findMatch lowerText captchaIndicators with
    | some ind => ⟨CType.captcha, some ind, Option.none⟩
    | Option.none =>
    match findMatch lowerText invalidCredentialIndicators with
    | some ind => ⟨CType.invalid_credentials, some ind, Option.none⟩
    | Option.none =>
    match findMatch lowerText accountLockedIndicators with
    | some ind => ⟨CType.account_locked, some ind, Option.none⟩
    | Option.none =>
    match findMatch lowerText appApprovalIndicators with
    | some ind => ⟨CType.app_approval, some ind, Option.none⟩
    | Option.none =>
    match findMatch lowerText emailSms2FAIndicators with
    | some ind =>
      let m := if strIncludes lowerText "phone" || strIncludes lowerText "sms"
                  || strIncludes lowerText "text message"
               then TwoFAMethod.sms else TwoFAMethod.email
      ⟨CType.email_sms_2fa, some ind, some m⟩
    | Option.none =>
    match findMatch lowerText authenticator2FAIndicators with
    | some ind => ⟨CType.authenticator_2fa, some ind, Option.none⟩
    | Option.none =>
      if strIncludes url "checkpoint" || strIncludes url "challenge"
          || strIncludes url "two-step" then
        match otpDetectSelectors.find? (fun sel => p.visible sel) with
        | some sel =>
          if strIncludes lowerText "phone" || strIncludes lowerText "sms" then
            ⟨CType.email_sms_2fa, some sel, some TwoFAMethod.sms⟩
          else if strIncludes lowerText "email" then
            ⟨CType.email_sms_2fa, some sel, some TwoFAMethod.email⟩
          else
            ⟨CType.email_sms_2fa, some sel, some TwoFAMethod.unknown⟩
        | Option.none =>
          if p.visible approveTapSel then
            ⟨CType.app_approval, some "approval_button_present", Option.none⟩
          else
            ⟨CType.unknown_challenge, some "generic_checkpoint", Option.none⟩
      else if strIncludes lowerText s!"confirm it{apos}s you"
          || strIncludes lowerText s!"let{apos}s do a quick security check" then
        if p.visible sendCodeSel then
          ⟨CType.email_sms_2fa, some "security_check_send_code", some TwoFAMethod.unknown⟩
        else
          ⟨CType.unknown_challenge, some "generic_security_check", Option.none⟩
      else
        ⟨CType.none, Option.none, Option.none⟩

/-- The profile-element locators that `verifyLogin` probes. -/
def profileIndicators : List String :=
  [".global-nav__me",
   "[data-control-name=\"identity_welcome_message\"]",
   ".feed-identity-module",
   "img.global-nav__me-photo"]

/-- Embedding of `verifyLogin`: authenticated-landing check by URL pattern
or visible profile element. -/
def verifyLogin (p : Page) : Bool :=
  strIncludes p.url "/feed" || strIncludes p.url "/mynetwork"
    || strIncludes p.url "/messaging"
    || profileIndicators.any (fun sel => p.visible sel)

/-- Actions the worker performs, recorded as a trace.  Browser-mutating
actions (`goto`, `typeText`, `typeCode`, `click`) are distinguished from
backend notifications (`updateState`, `saveSession`, `publishShot`,
`clearCode`) and connection management (`connect`, `closeBrowser`, ...). -/
inductive Act
  | updateState (s : String)
  | addCookies (names : List String)
  | goto (url : String)
  | typeText (sel : String)
  | typeCode (code : String)
  | click (sel : String)
  | debugLog
  | publishShot (img : Option String)
  | clearCode
  | saveSession
  | connect
  | setViewport
  | runHandler (name : String)
  | closeBrowser
  | sleep (ms : Nat)
  | attempt (n : Nat)
  deriving DecidableEq, Repr

/-- Navigation or form-submission actions on the browser session. -/
def isNavOrSubmit : Act → Bool
  | Act.goto _ => true
  | Act.typeText _ => true
  | Act.typeCode _ => true
  | Act.click _ => true
  | _ => false

/-- Credential typing into a page field (`typeHuman` on a login input). -/
def isCredTyping : Act → Bool
  | Act.typeText _ => true
  | _ => false

/-- The result object of a successful login
(`{ success, message, hasCookies }`). -/
structure LoginResult where
  success : Bool
  message : String
  hasCookies : Bool
  deriving DecidableEq, Repr

/-- Embedding of `extractSessionAndComplete`: read the context cookies,
require `li_at`, report the session to the backend.  Returns the result
(`Except` models the `throw`) together with the performed actions. -/
def extractSessionAndComplete (ctxCookies : List Cookie) :
    Except String LoginResult × List Act :=
  match findCookie ctxCookies "li_at" with
  | Option.none =>
    (Except.error "Failed to extract li_at session cookie",
     [Act.updateState "extracting_profile"])
  | some _ =>
    (Except.ok ⟨true, "LinkedIn login successful", true⟩,
     [Act.updateState "extracting_profile", Act.saveSession])

/-- Embedding of `waitFor2FACompletion`: poll for navigation away from the
challenge URL (or a verified login once off checkpoint), with `fuel`
remaining polls before the timeout; `pages i` is the page observed at the
i-th poll.  Performs no browser actions. -/
def waitFor2FACompletion (pages : Nat → Page) : Nat → Nat → Bool
  | 0, _ => false
  | fuel+1, i =>
    let url := (pages i).url
    if strIncludes url "/feed" || strIncludes url "/mynetwork"
        || strIncludes url "/in/" then true
    else if !(strIncludes url "checkpoint") && !(strIncludes url "challenge")
        && !(strIncludes url "two-step") && verifyLogin (pages i) then true
    else waitFor2FACompletion pages fuel (i+1)

/-- The code-input selectors probed by `pollAndEnter2FACode` (the detect
list plus a plain text input). -/
def otpInputSelectors : List String :=
  otpDetectSelectors ++ ["input[type=\"text\"]"]

/-- The submit-control selectors probed by `pollAndEnter2FACode`. -/
def otpSubmitSelectors : List String :=
  ["button[type=\"submit\"]",
   "button:has-text(\"Submit\")",
   "button:has-text(\"Verify\")",
   "button:has-text(\"Next\")",
   "#two-step-submit-button"]

/-- `url.includes('/feed') || url.includes('/mynetwork') || url.includes('/in/')`
on the raw URL, as checked inside `pollAndEnter2FACode`. -/
def otpNavAway (p : Page) : Bool :=
  strIncludes p.url "/feed" || strIncludes p.url "/mynetwork"
    || strIncludes p.url "/in/"

/-- Environment for one run of the OTP polling loop: the code delivered to
the external store at each iteration (if any), whether the poll request
succeeded, and the page observed at that iteration. -/
structure OtpEnv where
  deliveredAt : Nat → Option String
  fetchOk : Nat → Bool
  pageAt : Nat → Page

/-- The pending-code record visible at iteration `i`: what the loop still
holds, or the code newly delivered to the external store. -/
def otpStoreAt (env : OtpEnv) (i : Nat) (store : Option String) : Option String :=
  match store with
  | some c => some c
  | Option.none => env.deliveredAt i

/-- One poll iteration of `pollAndEnter2FACode`: when the poll request
succeeded and the pending code has exactly 6 characters and a code input
is visible, type the code, click the first visible submit control (if
any; otherwise the code is treated as auto-submitting) and clear the
pending record; returns the actions performed, or `none` when no
submission happened this iteration. -/
def otpSubmitStep (env : OtpEnv) (i : Nat) (pending : Option String) :
    Option (List Act) :=
  if env.fetchOk i then
    match pending with
    | some code =>
      if code.length = 6 then
        match otpInputSelectors.find? (fun sel => (env.pageAt i).visible sel) with
        | some _ =>
          match otpSubmitSelectors.find? (fun sel => (env.pageAt i).visible sel) with
          | some ssel =>
            some [Act.typeCode code, Act.click ssel, Act.clearCode]
          | Option.none =>
            some [Act.typeCode code, Act.clearCode]
        | Option.none => Option.none
      else Option.none
    | Option.none => Option.none
  else Option.none

/-- Embedding of `pollAndEnter2FACode` (part_000, lines 467-573).  The
pending-code record of the external store is threaded explicitly: the store
receives `deliveredAt i` when empty, and `clearAgent2FACode` empties it.
Returns (result, final store contents, trace).  A delivered code is typed
and submitted only when its length is exactly 6 and a code input is
visible; the clear happens on both submission paths (submit control found,
or treated as auto-submitting).  The timeout exit performs no clear. -/
def otpLoop (env : OtpEnv) : Nat → Nat → Option String →
    Bool × Option String × List Act
  | 0, _, store => (false, store, [])
  | fuel+1, i, store =>
    match otpSubmitStep env i (otpStoreAt env i store) with
    | some tr => (true, Option.none, tr)
    | Option.none =>
      if otpNavAway (env.pageAt i) then (true, otpStoreAt env i store, [])
      else otpLoop env fuel (i+1) (otpStoreAt env i store)

/-- Environment for one run of the CAPTCHA wait loop. -/
structure CapEnv where
  pageAt : Nat → Page
  initShotOk : Bool
  refreshAt : Nat → Bool
  refreshShotOk : Nat → Bool

/-- The CAPTCHA markers re-checked inside the wait loop: any indicator
phrase in the text, or the captcha iframe visible. -/
def captchaStillPresent (p : Page) : Bool :=
  (findMatch (strToLower p.bodyText) captchaIndicators).isSome
    || p.visible captchaIframeSel

/-- The polling loop of `waitForCaptchaSolved`: exits with `true` when the
page navigated to a logged-in URL or all CAPTCHA markers are gone (clearing
the published screenshot), refreshes the screenshot on the slower cadence
(`refreshAt`), and on fuel exhaustion (timeout) exits `false`, also
clearing the screenshot. -/
def captchaLoop (env : CapEnv) : Nat → Nat → Bool × List Act
  | 0, _ => (false, [Act.publishShot Option.none])
  | fuel+1, i =>
    let p := env.pageAt i
    let url := strToLower p.url
    if strIncludes url "/feed" || strIncludes url "/mynetwork"
        || strIncludes url "/in/" then
      (true, [Act.publishShot Option.none])
    else if !(captchaStillPresent p) && !(strIncludes url "checkpoint")
        && !(strIncludes url "challenge") then
      (true, [Act.publishShot Option.none])
    else
      let shot := if env.refreshAt i && env.refreshShotOk i then
          [Act.publishShot (some "screenshot")]
        else []
      ((captchaLoop env fuel (i+1)).1, shot ++ (captchaLoop env fuel (i+1)).2)

/-- Embedding of `waitForCaptchaSolved` (part_000, lines 590-700): set the
agent state, publish an initial screenshot (when capture succeeds), then
run the polling loop. -/
def waitForCaptchaSolved (env : CapEnv) (fuel : Nat) : Bool × List Act :=
  let t0 := [Act.updateState "awaiting_captcha"]
    ++ (if env.initShotOk then [Act.publishShot (some "screenshot")] else [])
  ((captchaLoop env fuel 0).1, t0 ++ (captchaLoop env fuel 0).2)

/-- The credential-material fields of the task payload read by
`handleLinkedInLogin` (part_000).  `email`/`password` stand for
`payload.email || payload.linkedinEmail` and
`payload.password || payload.linkedinPassword` (JS falsy collapse). -/
structure Payload where
  email : Option String
  password : Option String
  useCookies : Bool
  liAtCookie : Option String
  liACookie : Option String

/-- Environment of one login run: the page observed after each await
point, plus the environments/fuel of the human-channel loops invoked by
the challenge dispatch. -/
structure LoginEnv where
  pageAfterCookieNav : Page
  pageAfterLoginNav : Page
  pageAfterSubmit : Page
  capEnv : CapEnv
  capFuel : Nat
  pageAfterCaptcha : Page
  pageAfterCaptchaRecheck : Page
  otpEnv : OtpEnv
  otpFuel : Nat
  pageAfterOtp : Page
  pageAfterPostCaptchaOtp : Page
  pageAfterAuthOtp : Page
  approvalPages : Nat → Page
  approvalFuel : Nat

/-- Embedding of the `switch (challenge.type)` dispatch of
`handleLinkedInLogin` (part_000, lines 921-1075).  `p` is the page on
which the challenge was detected, `ctx` the context cookies at dispatch
time. -/
def dispatchChallenge (ch : Challenge) (p : Page) (ctx : List Cookie)
    (env : LoginEnv) : Except String LoginResult × List Act :=
  match ch.ctype with
  | CType.none =>
    if verifyLogin p then extractSessionAndComplete ctx
    else (Except.error "Login failed - ended in unknown state", [Act.debugLog])
  | CType.invalid_credentials =>
    (Except.error "Invalid credentials", [Act.updateState "invalid_credentials"])
  | CType.account_locked =>
    (Except.error "Account locked", [Act.updateState "account_locked"])
  | CType.captcha =>
    let (solved, ctr) := waitForCaptchaSolved env.capEnv env.capFuel
    if solved then
      if verifyLogin env.pageAfterCaptcha then
        let (r, te) := extractSessionAndComplete ctx
        (r, ctr ++ te)
      else
        let post := detectChallengeType env.pageAfterCaptcha
        match post.ctype with
        | CType.none =>
          if verifyLogin env.pageAfterCaptchaRecheck then
            let (r, te) := extractSessionAndComplete ctx
            (r, ctr ++ te)
          else
            (Except.error "Unknown state after CAPTCHA solved", ctr ++ [Act.debugLog])
        | CType.email_sms_2fa =>
          let (entered, _, otr) := otpLoop env.otpEnv env.otpFuel 0 Option.none
          let t := ctr ++ [Act.updateState "awaiting_2fa"] ++ otr
          if entered && verifyLogin env.pageAfterPostCaptchaOtp then
            let (r, te) := extractSessionAndComplete ctx
            (r, t ++ te)
          else (Except.error "2FA failed after CAPTCHA", t)
        | CType.authenticator_2fa =>
          let (entered, _, otr) := otpLoop env.otpEnv env.otpFuel 0 Option.none
          let t := ctr ++ [Act.updateState "awaiting_2fa"] ++ otr
          if entered && verifyLogin env.pageAfterPostCaptchaOtp then
            let (r, te) := extractSessionAndComplete ctx
            (r, t ++ te)
          else (Except.error "2FA failed after CAPTCHA", t)
        | CType.app_approval =>
          let done := waitFor2FACompletion env.approvalPages env.approvalFuel 0
          let t := ctr ++ [Act.updateState "awaiting_app_approval"]
          if done then
            let (r, te) := extractSessionAndComplete ctx
            (r, t ++ te)
          else (Except.error "App approval timeout after CAPTCHA", t)
        | _ =>
          (Except.error "Unknown state after CAPTCHA solved", ctr ++ [Act.debugLog])
    else
      (Except.error "CAPTCHA timeout", ctr ++ [Act.updateState "failed"])
  | CType.app_approval =>
    let done := waitFor2FACompletion env.approvalPages env.approvalFuel 0
    let t := [Act.updateState "awaiting_app_approval"]
    if done then
      let (r, te) := extractSessionAndComplete ctx
      (r, t ++ te)
    else (Except.error "App approval timeout", t)
  | CType.email_sms_2fa =>
    let (entered, _, otr) := otpLoop env.otpEnv env.otpFuel 0 Option.none
    let t := [Act.updateState "awaiting_2fa"] ++ otr
    if entered then
      if verifyLogin env.pageAfterOtp then
        let (r, te) := extractSessionAndComplete ctx
        (r, t ++ te)
      else if (detectChallengeType env.pageAfterOtp).ctype = CType.email_sms_2fa then
        (Except.error "Invalid 2FA code - please try again", t)
      else
        (Except.error "2FA timeout - no code received", t)
    else (Except.error "2FA timeout - no code received", t)
  | CType.authenticator_2fa =>
    let (entered, _, otr) := otpLoop env.otpEnv env.otpFuel 0 Option.none
    let t := [Act.updateState "awaiting_2fa"] ++ otr
    if entered && verifyLogin env.pageAfterAuthOtp then
      let (r, te) := extractSessionAndComplete ctx
      (r, t ++ te)
    else (Except.error "Authenticator 2FA timeout", t)
  | CType.unknown_challenge =>
    (Except.error "Unknown challenge", [Act.updateState "failed"])

/-- The credential phase of `handleLinkedInLogin` (part_000): navigate to
the login page, short-circuit when already authenticated, require both
credentials, type them and submit, then detect and dispatch the
challenge.  `tpre` is the trace accumulated before this phase. -/
def credentialPhase (payload : Payload) (ctx : List Cookie)
    (tpre : List Act) (env : LoginEnv) : Except String LoginResult × List Act :=
  let t1 := tpre ++ [Act.goto "https://www.linkedin.com/login"]
  if verifyLogin env.pageAfterLoginNav then
    let (r, te) := extractSessionAndComplete ctx
    (r, t1 ++ te)
  else
    match payload.email, payload.password with
    | some _, some _ =>
      let t2 := t1 ++ [Act.updateState "entering_credentials",
        Act.typeText "input#username, input[name=\"session_key\"]",
        Act.typeText "input#password, input[name=\"session_password\"]",
        Act.click "button[type=\"submit\"]"]
      let ch := detectChallengeType env.pageAfterSubmit
      let t3 := if ch.ctype = CType.none then t2 else t2 ++ [Act.debugLog]
      let (r, td) := dispatchChallenge ch env.pageAfterSubmit ctx env
      (r, t3 ++ td)
    | _, _ => (Except.error "Missing email or password for login", t1)

/-- Embedding of `handleLinkedInLogin` (part_000, lines 831-1081).
`ctx0` is the cookie jar of the browser context when the handler starts;
`context.addCookies` appends to it. -/
def handleLinkedInLogin (payload : Payload) (ctx0 : List Cookie)
    (env : LoginEnv) : Except String LoginResult × List Act :=
  let t0 := [Act.updateState "navigating"]
  match payload.useCookies, payload.liAtCookie with
  | true, some liAt =>
    let added := Cookie.mk "li_at" liAt ::
      (match payload.liACookie with
       | some liA => [Cookie.mk "li_a" liA]
       | Option.none => [])
    let ctx := ctx0 ++ added
    let t1 := t0 ++ [Act.addCookies (added.map Cookie.name),
      Act.goto "https://www.linkedin.com/feed/"]
    if verifyLogin env.pageAfterCookieNav then
      let (r, te) := extractSessionAndComplete ctx
      (r, t1 ++ te)
    else
      credentialPhase payload ctx t1 env
  | _, _ => credentialPhase payload ctx0 t0 env

/-- The error-indicator phrase/type pairs of `checkLoginFailed`
(worker.js, lines 272-309). -/
def wErrorIndicators : List (String × String) :=
  [(s!"that{apos}s not the right password", "invalid_credentials"),
   ("wrong password", "invalid_credentials"),
   ("incorrect password", "invalid_credentials"),
   ("please check your password", "invalid_credentials"),
   (s!"couldn{apos}t find a linkedin account", "invalid_credentials"),
   ("account has been restricted", "account_locked"),
   ("temporarily locked", "account_locked"),
   ("unusual activity", "account_locked"),
   ("your account has been temporarily restricted", "account_locked"),
   (s!"we{apos}ve restricted your account", "account_locked")]

/-- The error-banner locator probed when still on the login page. -/
def wErrorBannerSel : String :=
  ".form__label--error, [data-test=\"form-error\"], .alert-error"

/-- Embedding of `checkLoginFailed` (worker.js): phrase scan of the page
text, then the error-banner check when the URL is still a login URL. -/
def wCheckLoginFailed (p : Page) : Option String :=
  match wErrorIndicators.find? (fun pr => strIncludes (strToLower p.bodyText) pr.1) with
  | some pr => some pr.2
  | Option.none =>
    if (strIncludes p.url "/login" || strIncludes p.url "/uas/login")
        && p.visible wErrorBannerSel then
      some "invalid_credentials"
    else Option.none

/-- The app-approval phrases of worker.js `checkAppApprovalRequired`
(compared lower-cased on both sides in the source, so stored here
lower-cased). -/
def wAppApprovalIndicators : List String :=
  ["approve this sign-in from your linkedin app",
   "open the linkedin app to confirm",
   s!"confirm it{apos}s you",
   "we sent a notification to your linkedin app",
   "approve from the linkedin app"]

/-- Embedding of `checkAppApprovalRequired` (worker.js, lines 240-269):
phrase scan, and additionally "on a checkpoint page with no OTP input"
is treated as app approval. -/
def checkAppApprovalRequired (p : Page) : Bool :=
  if (wAppApprovalIndicators.find?
      (fun ind => strIncludes (strToLower p.bodyText) ind)).isSome then true
  else if strIncludes p.url "checkpoint"
      && !(p.visible "input[name=\"pin\"]")
      && !(p.visible "input[placeholder*=\"code\"]") then true
  else false

/-- The 2FA indicator selectors of worker.js `check2FARequired`. -/
def wTwoFASelectors : List (String × String) :=
  [("input[name=\"pin\"]", "app"),
   ("#input__phone_verification_pin", "sms"),
   ("#input__email_verification_pin", "email"),
   ("[data-test=\"verification-code-input\"]", "app"),
   ("input[placeholder*=\"code\"]", "app"),
   ("input[placeholder*=\"verification\"]", "app")]

/-- Embedding of `check2FARequired` (worker.js): selector probes, then a
raw (not lower-cased) text scan. -/
def wCheck2FARequired (p : Page) : Option String :=
  match wTwoFASelectors.find? (fun pr => p.visible pr.1) with
  | some pr => some pr.2
  | Option.none =>
    if strIncludes p.bodyText "verification code"
        || strIncludes p.bodyText "two-step verification"
        || strIncludes p.bodyText "Enter the code" then
      some "unknown"
    else Option.none

/-- Environment of the worker.js post-submission phase. -/
structure WEnv where
  approvalPages : Nat → Page
  approvalFuel : Nat
  twoFAPages : Nat → Page
  twoFAFuel : Nat
  pageAfterApproval : Page
  pageAfter2FA : Page
  ctxCookies : List Cookie

/-- Embedding of the post-submission part of worker.js
`handleLinkedInLogin` (lines 417-478): failed-login check first (no
retry), then app approval, then SMS/email 2FA, then verification and
extraction. -/
def workerChallengePhase (p : Page) (env : WEnv) :
    Except String LoginResult × List Act :=
  match wCheckLoginFailed p with
  | some t =>
    let msg := if t == "invalid_credentials" then "Wrong password - do NOT retry"
               else "Account locked by LinkedIn"
    (Except.error (String.append "Login failed: " msg), [Act.updateState t])
  | Option.none =>
    let approvalNeeded := checkAppApprovalRequired p
    let t1 := if approvalNeeded then [Act.updateState "awaiting_app_approval"] else []
    if approvalNeeded
        && !(waitFor2FACompletion env.approvalPages env.approvalFuel 0) then
      (Except.error "LinkedIn app approval timed out", t1)
    else
      let p2 := if approvalNeeded then env.pageAfterApproval else p
      let needs2fa := (wCheck2FARequired p2).isSome
      let t2 := t1 ++ (if needs2fa then [Act.updateState "awaiting_2fa"] else [])
      if needs2fa && !(waitFor2FACompletion env.twoFAPages env.twoFAFuel 0) then
        (Except.error "2FA verification timed out", t2)
      else
        let p3 := if needs2fa then env.pageAfter2FA else p2
        let t3 := t2 ++ [Act.updateState "verifying_session"]
        if verifyLogin p3 then
          let (r, te) := extractSessionAndComplete env.ctxCookies
          (r, t3 ++ te)
        else
          match wCheckLoginFailed p3 with
          | some t =>
            (Except.error (String.append "Login failed after verification: " t),
             t3 ++ [Act.updateState t])
          | Option.none =>
            (Except.error "Login verification failed - not on expected page", t3)

/-- `!!cookie?.value`: the cookie exists and its value is a non-empty
(JS-truthy) string. -/
def truthyOpt : Option Cookie → Bool
  | some c => c.value != ""
  | Option.none => false

/-- `!!(find c.name = n).value` over a cookie jar. -/
def cookieTruthy (cs : List Cookie) (n : String) : Bool :=
  truthyOpt (findCookie cs n)

/-- The result record of `validateFullSession`. -/
structure SessionValidation where
  valid : Bool
  reason : Option String
  confidence : Option ℚ
  deriving Repr

/-- Embedding of `validateFullSession` (worker.js, lines 312-345): `li_at`
(with a truthy value) is mandatory; confidence is the fraction of the four
signal cookies (`li_at`, `li_a`, `JSESSIONID`, `bcookie`) present. -/
def validateFullSession (cs : List Cookie) : SessionValidation :=
  match findCookie cs "li_at" with
  | Option.none => ⟨false, some "Missing li_at cookie", Option.none⟩
  | some c =>
    if c.value = "" then ⟨false, some "Missing li_at cookie", Option.none⟩
    else
      let signals : List Bool :=
        [true, cookieTruthy cs "li_a", cookieTruthy cs "JSESSIONID",
         cookieTruthy cs "bcookie"]
      ⟨true, Option.none, some ((signals.countP (fun b => b) : ℚ) / 4)⟩

/-- The retryable-error test of `startGoLoginProfile` (worker.js, lines
197-208): transient failures recognized by message substring. -/
def isRetryableMsg (m : String) : Bool :=
  strIncludes m "500" || strIncludes m "502" || strIncludes m "503"
    || strIncludes m "504" || strIncludes m "ECONNRESET"
    || strIncludes m "ECONNREFUSED" || strIncludes m "timeout"
    || strIncludes m "ETIMEDOUT" || strIncludes m "network"
    || strIncludes m "socket hang up" || strIncludes m "WebSocket"

/-- The backoff delay before retrying after the given attempt:
`Math.pow(2, attempt) * 2000` milliseconds. -/
def connSleepMs (attempt : Nat) : Nat := Nat.pow 2 attempt * 2000

/-- Environment for the connector: the outcome of each connection
attempt (1-based), `.ok` meaning `connectOverCDP` succeeded. -/
structure ConnEnv where
  attemptOutcome : Nat → Except String Unit

/-- The retry loop of `startGoLoginProfile` (worker.js, lines 158-221).
`remaining` counts the attempts still allowed (structural fuel), `attempt`
is the 1-based attempt number, `lastError` the message of the previous
failure (thrown when the loop exhausts its attempts).  403/Forbidden and
404/not-found errors abort immediately; non-retryable errors are
re-thrown; retryable ones sleep `connSleepMs attempt` and retry while
attempts remain. -/
def connectAttempts (env : ConnEnv) :
    Nat → Nat → String → Except String Unit × List Act
  | 0, _, lastError => (Except.error lastError, [])
  | remaining+1, attempt, _ =>
    match env.attemptOutcome attempt with
    | Except.ok _ => (Except.ok (), [Act.attempt attempt])
    | Except.error msg =>
      if strIncludes msg "403" || strIncludes msg "Forbidden" then
        (Except.error "GoLogin profile access denied (403). Profile may not exist or token mismatch.",
         [Act.attempt attempt])
      else if strIncludes msg "404" || strIncludes msg "not found" then
        (Except.error "GoLogin profile not found (404).", [Act.attempt attempt])
      else if isRetryableMsg msg then
        match remaining with
        | 0 => (Except.error msg, [Act.attempt attempt])
        | r+1 =>
          let (res, tr) := connectAttempts env (r+1) (attempt+1) msg
          (res, Act.attempt attempt :: Act.sleep (connSleepMs attempt) :: tr)
      else
        (Except.error msg, [Act.attempt attempt])

/-- Embedding of `startGoLoginProfile` (worker.js): up to `maxRetries = 3`
attempts. -/
def startGoLoginProfile (env : ConnEnv) : Except String Unit × List Act :=
  connectAttempts env 3 1 ""

/-- The fields of a queued action record read by `processAction`. -/
structure ActionRec where
  actionType : String
  profileId : Option String

/-- Environment for `processAction`: the connection outcome and the
outcome of whichever action handler runs. -/
structure ProcEnv where
  connectOutcome : Except String Unit
  handlerResult : Except String LoginResult

/-- The action types `processAction` has a handler for. -/
def knownActionType (t : String) : Bool :=
  t == "linkedin_login" || t == "login" || t == "view_profile"
    || t == "send_connection" || t == "send_message"

/-- Embedding of `processAction` (worker.js, lines 609-666): require a
linked profile, connect inside `try`, run the handler by action type, and
in the `finally` block close the browser connection; when the connection
itself failed the browser variable is still null, so there is nothing to
release and no close is performed. -/
def processAction (a : ActionRec) (env : ProcEnv) :
    Except String LoginResult × List Act :=
  match a.profileId with
  | Option.none => (Except.error "No GoLogin profile linked to this agent", [])
  | some _ =>
    match env.connectOutcome with
    | Except.error e => (Except.error e, [Act.connect])
    | Except.ok _ =>
      let body : Except String LoginResult × List Act :=
        if knownActionType a.actionType then
          (env.handlerResult, [Act.runHandler a.actionType])
        else
          (Except.error (String.append "Unknown action type: " a.actionType), [])
      (body.1, [Act.connect, Act.setViewport] ++ body.2 ++ [Act.closeBrowser])

/-- A CAPTCHA environment in which nothing ever happens. -/
def blankCapEnv : CapEnv := ⟨fun _ => blankPage, false, fun _ => false, fun _ => false⟩

/-- An OTP environment in which no code is ever delivered. -/
def blankOtpEnv : OtpEnv := ⟨fun _ => Option.none, fun _ => false, fun _ => blankPage⟩

/-- A login environment in which every observed page is blank and every
human-channel loop has no time left. -/
def defaultLoginEnv : LoginEnv :=
  ⟨blankPage, blankPage, blankPage, blankCapEnv, 0, blankPage, blankPage,
   blankOtpEnv, 0, blankPage, blankPage, blankPage, fun _ => blankPage, 0⟩

/-- A worker environment with blank pages and no time on either wait. -/
def blankWEnv : WEnv :=
  ⟨fun _ => blankPage, 0, fun _ => blankPage, 0, blankPage, blankPage, []⟩

/-- A page carrying both a CAPTCHA marker phrase and an OTP marker phrase. -/
def c1Page : Page :=
  ⟨"security verification required we sent a code to you",
   "https://www.linkedin.com/checkpoint/challenge/", fun _ => false⟩

/-- A generic checkpoint page: checkpoint URL, no recognized indicator
phrase, no visible element at all. -/
def genericCheckpointPage : Page :=
  ⟨"please complete this step to continue",
   "https://www.linkedin.com/checkpoint/challenge/abc", fun _ => false⟩

/-- A page whose text carries a wrong-password phrase. -/
def wrongPasswordPage : Page :=
  ⟨"wrong password, try again",
   "https://www.linkedin.com/login", fun _ => false⟩

/-- An authenticated landing page (feed URL). -/
def feedPage : Page :=
  ⟨"welcome", "https://www.linkedin.com/feed/", fun _ => false⟩

/-- OTP environment where a 6-character code is delivered at once but no
code-input field is ever visible and the page never navigates away. -/
def otpStuckEnv : OtpEnv :=
  ⟨fun _ => some "123456", fun _ => true, fun _ => genericCheckpointPage⟩

/-- OTP environment where a 6-character code is delivered and both a code
input and a submit control are visible. -/
def otpSubmitEnv : OtpEnv :=
  ⟨fun _ => some "654321", fun _ => true,
   fun _ => ⟨"enter your code", "https://www.linkedin.com/checkpoint/",
     fun sel => sel == "input[name=\"pin\"]" || sel == "button[type=\"submit\"]"⟩⟩

/-- OTP environment where only a 5-character code is ever delivered. -/
def otpShortCodeEnv : OtpEnv :=
  ⟨fun _ => some "12345", fun _ => true, fun _ => genericCheckpointPage⟩

/-- A cookie jar with all corroborating cookies but no `li_at`. -/
def csNoLiAt : List Cookie :=
  [⟨"li_a", "x"⟩, ⟨"JSESSIONID", "y"⟩, ⟨"bcookie", "z"⟩]

/-- Connector environment that always fails with a 403. -/
def connEnvFatal : ConnEnv := ⟨fun _ => Except.error "403 Forbidden"⟩

/-- Connector environment that always fails with a connection reset. -/
def connEnvTransient : ConnEnv := ⟨fun _ => Except.error "ECONNRESET"⟩

/-- A payload carrying only a reusable session cookie, no credentials. -/
def cookieOnlyPayload : Payload :=
  ⟨Option.none, Option.none, true, some "tok", Option.none⟩

/-- Login environment in which the page after the cookie-restore
navigation is the authenticated feed. -/
def cookieRestoreEnv : LoginEnv :=
  { defaultLoginEnv with pageAfterCookieNav := feedPage }

/-- A login action record with a linked profile. -/
def loginActionRec : ActionRec := ⟨"linkedin_login", some "p1"⟩

/-- A processing environment whose connection and handler both succeed. -/
def okProcEnv : ProcEnv :=
  ⟨Except.ok (), Except.ok ⟨true, "LinkedIn login successful", true⟩⟩

/-- Is this action the clearing of the pending code record? -/
def isClearEv : Act → Bool
  | Act.clearCode => true
  | _ => false

/-- Is this action the typing of a received code? -/
def isTypedEv : Act → Bool
  | Act.typeCode _ => true
  | _ => false

/-- All indicator phrases recognized by `detectChallengeType` steps 1-6. -/
def allIndicatorPhrases : List String :=
  captchaIndicators ++ invalidCredentialIndicators ++ accountLockedIndicators
    ++ appApprovalIndicators ++ emailSms2FAIndicators ++ authenticator2FAIndicators

/-- A classifier verdict of rejected credentials. -/
def invalidCredChallenge : Challenge :=
  ⟨CType.invalid_credentials, some "wrong password", Option.none⟩

/-- C1: for every page state carrying a CAPTCHA marker (visible
captcha/recaptcha/hcaptcha/arkose iframe, or a CAPTCHA verification phrase
in the page text) together with any OTP marker (a visible code-input field
or a we-sent-a-code phrase), `detectChallengeType` returns the `captcha`
category, never an OTP category. -/
theorem captcha_preempts_otp_markers (p : Page)
    (hcap : p.visible captchaIframeSel = true ∨
      (findMatch (strToLower p.bodyText) captchaIndicators).isSome = true)
    (hotp : (otpDetectSelectors.find? (fun sel => p.visible sel)).isSome = true ∨
      (findMatch (strToLower p.bodyText) emailSms2FAIndicators).isSome = true) :
    (detectChallengeType p).ctype = CType.captcha := by
  rcases hcap with hv | hf
  · simp [detectChallengeType, hv]
  · cases hv2 : p.visible captchaIframeSel
    · cases hfm : findMatch (strToLower p.bodyText) captchaIndicators with
      | none => rw [hfm] at hf; simp at hf
      | some ind => simp [detectChallengeType, hv2, hfm]
    · simp [detectChallengeType, hv2]

/-- Witness for C1 at a concrete page carrying both a CAPTCHA phrase and
an OTP phrase. -/
theorem captcha_preempts_otp_markers_witness :
    (detectChallengeType c1Page).ctype = CType.captcha :=
  captcha_preempts_otp_markers c1Page (Or.inr (by decide)) (Or.inr (by decide))

/-- C2: whenever the verdict after credential submission is
`invalid_credentials` or `account_locked`, the run terminates immediately
with an error (the `Rejected` outcome): the only action performed is the
agent-state notification, and in particular there are zero subsequent
navigation or form-submission actions on the browser session — in both
the part_000 dispatch and the worker.js challenge phase. -/
theorem rejected_verdict_terminates_run
    (ch : Challenge) (p : Page) (ctx : List Cookie) (env : LoginEnv)
    (wp : Page) (wenv : WEnv) (t : String)
    (h : ch.ctype = CType.invalid_credentials ∨ ch.ctype = CType.account_locked)
    (hw : wCheckLoginFailed wp = some t) :
    ((∃ e, (dispatchChallenge ch p ctx env).1 = Except.error e) ∧
      ((dispatchChallenge ch p ctx env).2 = [Act.updateState "invalid_credentials"] ∨
       (dispatchChallenge ch p ctx env).2 = [Act.updateState "account_locked"]) ∧
      (dispatchChallenge ch p ctx env).2.any isNavOrSubmit = false) ∧
    ((∃ e, (workerChallengePhase wp wenv).1 = Except.error e) ∧
      (workerChallengePhase wp wenv).2 = [Act.updateState t] ∧
      (workerChallengePhase wp wenv).2.any isNavOrSubmit = false) := by
  constructor
  · rcases h with h | h <;> simp [dispatchChallenge, h, isNavOrSubmit]
  · simp [workerChallengePhase, hw, isNavOrSubmit]

/-- Witness for C2 at a concrete rejected-credential verdict and a page
showing a wrong-password phrase. -/
theorem rejected_verdict_terminates_run_witness :
    ((∃ e, (dispatchChallenge invalidCredChallenge blankPage [] defaultLoginEnv).1
        = Except.error e) ∧
      ((dispatchChallenge invalidCredChallenge blankPage [] defaultLoginEnv).2
          = [Act.updateState "invalid_credentials"] ∨
       (dispatchChallenge invalidCredChallenge blankPage [] defaultLoginEnv).2
          = [Act.updateState "account_locked"]) ∧
      (dispatchChallenge invalidCredChallenge blankPage [] defaultLoginEnv).2.any
        isNavOrSubmit = false) ∧
    ((∃ e, (workerChallengePhase wrongPasswordPage blankWEnv).1 = Except.error e) ∧
      (workerChallengePhase wrongPasswordPage blankWEnv).2
        = [Act.updateState "invalid_credentials"] ∧
      (workerChallengePhase wrongPasswordPage blankWEnv).2.any isNavOrSubmit = false) :=
  rejected_verdict_terminates_run invalidCredChallenge blankPage [] defaultLoginEnv
    wrongPasswordPage blankWEnv "invalid_credentials" (Or.inl rfl) (by decide)

/-- C3 (amended): in the consolidated classifier (part_000
`detectChallengeType`), a generic checkpoint URL showing none of the
recognized challenge markers and no approval-confirmation control
classifies as `unknown_challenge`, and the part_000 run never enters a
push-approval wait on that verdict (its dispatch fails without ever
setting the `awaiting_app_approval` state). -/
theorem generic_checkpoint_unknown_challenge
    (p : Page) (ctx : List Cookie) (env : LoginEnv)
    (hurl : strIncludes (strToLower p.url) "checkpoint" = true)
    (hiframe : p.visible captchaIframeSel = false)
    (htext : ∀ ind ∈ allIndicatorPhrases,
      strIncludes (strToLower p.bodyText) ind = false)
    (hinput : ∀ sel ∈ otpDetectSelectors, p.visible sel = false)
    (happrove : p.visible approveTapSel = false) :
    detectChallengeType p
      = ⟨CType.unknown_challenge, some "generic_checkpoint", Option.none⟩ ∧
    Act.updateState "awaiting_app_approval" ∉
      (dispatchChallenge (detectChallengeType p) p ctx env).2 ∧
    (∃ e, (dispatchChallenge (detectChallengeType p) p ctx env).1
      = Except.error e) := by
  have t1 : ∀ x ∈ captchaIndicators, strIncludes (strToLower p.bodyText) x = false :=
    fun x hx => htext x (by simp [allIndicatorPhrases, hx])
  have t2 : ∀ x ∈ invalidCredentialIndicators,
      strIncludes (strToLower p.bodyText) x = false :=
    fun x hx => htext x (by simp [allIndicatorPhrases, hx])
  have t3 : ∀ x ∈ accountLockedIndicators,
      strIncludes (strToLower p.bodyText) x = false :=
    fun x hx => htext x (by simp [allIndicatorPhrases, hx])
  have t4 : ∀ x ∈ appApprovalIndicators,
      strIncludes (strToLower p.bodyText) x = false :=
    fun x hx => htext x (by simp [allIndicatorPhrases, hx])
  have t5 : ∀ x ∈ emailSms2FAIndicators,
      strIncludes (strToLower p.bodyText) x = false :=
    fun x hx => htext x (by simp [allIndicatorPhrases, hx])
  have t6 : ∀ x ∈ authenticator2FAIndicators,
      strIncludes (strToLower p.bodyText) x = false :=
    fun x hx => htext x (by simp [allIndicatorPhrases, hx])
  have f1 : findMatch (strToLower p.bodyText) captchaIndicators = Option.none := by
    unfold findMatch
    exact List.find?_eq_none.mpr (fun x hx => by simp [t1 x hx])
  have f2 : findMatch (strToLower p.bodyText) invalidCredentialIndicators
      = Option.none := by
    unfold findMatch
    exact List.find?_eq_none.mpr (fun x hx => by simp [t2 x hx])
  have f3 : findMatch (strToLower p.bodyText) accountLockedIndicators
      = Option.none := by
    unfold findMatch
    exact List.find?_eq_none.mpr (fun x hx => by simp [t3 x hx])
  have f4 : findMatch (strToLower p.bodyText) appApprovalIndicators
      = Option.none := by
    unfold findMatch
    exact List.find?_eq_none.mpr (fun x hx => by simp [t4 x hx])
  have f5 : findMatch (strToLower p.bodyText) emailSms2FAIndicators
      = Option.none := by
    unfold findMatch
    exact List.find?_eq_none.mpr (fun x hx => by simp [t5 x hx])
  have f6 : findMatch (strToLower p.bodyText) authenticator2FAIndicators
      = Option.none := by
    unfold findMatch
    exact List.find?_eq_none.mpr (fun x hx => by simp [t6 x hx])
  have fsel : otpDetectSelectors.find? (fun sel => p.visible sel) = Option.none :=
    List.find?_eq_none.mpr (fun x hx => by simp [hinput x hx])
  have hdet : detectChallengeType p
      = ⟨CType.unknown_challenge, some "generic_checkpoint", Option.none⟩ := by
    simp [detectChallengeType, hiframe, f1, f2, f3, f4, f5, f6, hurl, fsel, happrove]
  refine ⟨hdet, ?_, ?_⟩
  · rw [hdet]; simp [dispatchChallenge]
  · rw [hdet]; exact ⟨_, rfl⟩

/-- Counterexample for C3: at the same concrete generic-checkpoint page
the worker.js revision classifies the state as push approval
(`checkAppApprovalRequired` returns `true` because the page is a
checkpoint with no OTP input) and its run enters the push-approval wait
(`awaiting_app_approval`), while `detectChallengeType` classifies the page
as `unknown_challenge` — refuting the claim that the run never silently
treats that state as push approval. -/
theorem generic_checkpoint_worker_enters_push_wait :
    detectChallengeType genericCheckpointPage
      = ⟨CType.unknown_challenge, some "generic_checkpoint", Option.none⟩ ∧
    checkAppApprovalRequired genericCheckpointPage = true ∧
    Act.updateState "awaiting_app_approval" ∈
      (workerChallengePhase genericCheckpointPage blankWEnv).2 ∧
    (workerChallengePhase genericCheckpointPage blankWEnv).1
      = Except.error "LinkedIn app approval timed out" := by
  exact ⟨by decide, by decide, by decide, rfl⟩

/-- Witness for the amended C3 at the concrete generic-checkpoint page. -/
theorem generic_checkpoint_unknown_challenge_witness :
    detectChallengeType genericCheckpointPage
      = ⟨CType.unknown_challenge, some "generic_checkpoint", Option.none⟩ ∧
    Act.updateState "awaiting_app_approval" ∉
      (dispatchChallenge (detectChallengeType genericCheckpointPage)
        genericCheckpointPage [] defaultLoginEnv).2 ∧
    (∃ e, (dispatchChallenge (detectChallengeType genericCheckpointPage)
        genericCheckpointPage [] defaultLoginEnv).1 = Except.error e) :=
  generic_checkpoint_unknown_challenge genericCheckpointPage [] defaultLoginEnv
    (by decide) (by decide) (by decide) (by decide) (by decide)

/-- A submission iteration performs the clear exactly once, types exactly
one code, and that code has exactly 6 characters (on both submission
paths: submit control clicked, or treated as auto-submitting). -/
theorem otpSubmitStep_spec (env : OtpEnv) (i : Nat) (pending : Option String)
    (tr : List Act) (h : otpSubmitStep env i pending = some tr) :
    tr.countP isClearEv = 1 ∧ tr.countP isTypedEv = 1 ∧
    ∀ c, Act.typeCode c ∈ tr → c.length = 6 := by
  unfold otpSubmitStep at h
  split at h
  · cases pending with
    | none => simp at h
    | some code =>
      simp only at h
      split at h
      · split at h
        · split at h
          · cases h
            refine ⟨by simp [List.countP, List.countP.go, isClearEv, isTypedEv], ?_, ?_⟩
            · simp [List.countP, List.countP.go, isClearEv, isTypedEv]
            · intro c hc
              simp at hc
              subst hc
              assumption
          · cases h
            refine ⟨by simp [List.countP, List.countP.go, isClearEv, isTypedEv], ?_, ?_⟩
            · simp [List.countP, List.countP.go, isClearEv, isTypedEv]
            · intro c hc
              simp at hc
              subst hc
              assumption
        · simp at h
      · simp at h
  · simp at h

/-- C4 (amended): over any run of the OTP polling loop, the pending code
record is cleared exactly once per successful code submission (the number
of clear actions equals the number of typed submissions, which is at most
one), and after a run that performed a submission the pending record is
empty.  The timeout exit performs no clear of its own, so a pending code
that was delivered but never entered remains set
(`otp_timeout_leaves_code_pending`). -/
theorem otp_clear_once_per_submission (env : OtpEnv) (fuel : Nat) :
    ∀ (i : Nat) (store : Option String),
    ((otpLoop env fuel i store).2.2.countP isClearEv
      = (otpLoop env fuel i store).2.2.countP isTypedEv) ∧
    (otpLoop env fuel i store).2.2.countP isTypedEv ≤ 1 ∧
    ((otpLoop env fuel i store).2.2.countP isTypedEv = 1 →
      (otpLoop env fuel i store).2.1 = Option.none) := by
  induction fuel with
  | zero => intro i store; simp [otpLoop]
  | succ n ih =>
    intro i store
    rcases hsub : otpSubmitStep env i (otpStoreAt env i store) with _ | tr
    · by_cases hnav : otpNavAway (env.pageAt i) = true
      · simp [otpLoop, hsub, hnav]
      · simp only [otpLoop, hsub, Bool.not_eq_true] at hnav ⊢
        simp only [hnav]
        exact ih (i+1) (otpStoreAt env i store)
    · obtain ⟨h1, h2, _⟩ := otpSubmitStep_spec env i (otpStoreAt env i store) tr hsub
      simp [otpLoop, hsub, h1, h2]

/-- Counterexample for C4: a 6-character code is delivered immediately,
but no code-input field is ever visible, so the loop exits by timeout with
the pending record still set to the delivered code and with zero clear
actions — refuting "the record is never left set after the polling loop
exits by timeout". -/
theorem otp_timeout_leaves_code_pending :
    otpLoop otpStuckEnv 2 0 Option.none = (false, some "123456", []) ∧
    (otpLoop otpStuckEnv 2 0 Option.none).2.2.countP isClearEv = 0 :=
  ⟨rfl, rfl⟩

/-- Witness for the amended C4 at a concrete run in which the delivered
code is typed and submitted. -/
theorem otp_clear_once_per_submission_witness :
    ((otpLoop otpSubmitEnv 1 0 Option.none).2.2.countP isClearEv
      = (otpLoop otpSubmitEnv 1 0 Option.none).2.2.countP isTypedEv) ∧
    (otpLoop otpSubmitEnv 1 0 Option.none).2.2.countP isTypedEv ≤ 1 ∧
    ((otpLoop otpSubmitEnv 1 0 Option.none).2.2.countP isTypedEv = 1 →
      (otpLoop otpSubmitEnv 1 0 Option.none).2.1 = Option.none) :=
  otp_clear_once_per_submission otpSubmitEnv 1 0 Option.none

/-- C10: the OTP polling loop types a received pending code only when the
code is exactly 6 characters long; when every delivered code has a
different length (and the page never navigates away), the loop performs no
typing or submission at all and keeps polling until the timeout
(returning `false`). -/
theorem otp_six_char_gate (env : OtpEnv) (fuel : Nat) :
    ∀ (i : Nat) (store : Option String),
    (∀ c, Act.typeCode c ∈ (otpLoop env fuel i store).2.2 → c.length = 6) ∧
    ((∀ j c, env.deliveredAt j = some c → c.length ≠ 6) →
     (∀ c, store = some c → c.length ≠ 6) →
     (∀ j, otpNavAway (env.pageAt j) = false) →
     (otpLoop env fuel i store).1 = false ∧
       (otpLoop env fuel i store).2.2 = []) := by
  induction fuel with
  | zero => intro i store; simp [otpLoop]
  | succ n ih =>
    intro i store
    constructor
    · intro c hc
      rcases hsub : otpSubmitStep env i (otpStoreAt env i store) with _ | tr
      · by_cases hnav : otpNavAway (env.pageAt i) = true
        · simp [otpLoop, hsub, hnav] at hc
        · simp only [otpLoop, hsub, Bool.not_eq_true] at hnav hc
          simp only [hnav] at hc
          exact (ih (i+1) (otpStoreAt env i store)).1 c hc
      · simp only [otpLoop, hsub] at hc
        exact (otpSubmitStep_spec env i (otpStoreAt env i store) tr hsub).2.2 c hc
    · intro hdel hstore hnav
      have hstore2 : ∀ c, otpStoreAt env i store = some c → c.length ≠ 6 := by
        intro c hc
        unfold otpStoreAt at hc
        cases store with
        | none => exact hdel i c hc
        | some d =>
          simp only at hc
          cases hc
          exact hstore c rfl
      have hsubnone : otpSubmitStep env i (otpStoreAt env i store) = Option.none := by
        unfold otpSubmitStep
        by_cases hf : env.fetchOk i = true
        · simp only [hf, if_true]
          cases hso : otpStoreAt env i store with
          | none => rfl
          | some code => simp [hstore2 code hso]
        · simp [hf]
      simp only [otpLoop, hsubnone, hnav i]
      simp only [Bool.false_eq_true, if_false]
      exact (ih (i+1) (otpStoreAt env i store)).2 hdel hstore2 hnav

/-- Witness for C10: with only a 5-character code delivered and no
navigation, the loop types nothing and times out. -/
theorem otp_six_char_gate_witness :
    (∀ c, Act.typeCode c ∈ (otpLoop otpShortCodeEnv 2 0 Option.none).2.2 →
      c.length = 6) ∧
    ((∀ j c, otpShortCodeEnv.deliveredAt j = some c → c.length ≠ 6) →
     (∀ c, (Option.none : Option String) = some c → c.length ≠ 6) →
     (∀ j, otpNavAway (otpShortCodeEnv.pageAt j) = false) →
     (otpLoop otpShortCodeEnv 2 0 Option.none).1 = false ∧
       (otpLoop otpShortCodeEnv 2 0 Option.none).2.2 = []) :=
  otp_six_char_gate otpShortCodeEnv 2 0 Option.none

/-- C5: session extraction fails whenever the primary cookie `li_at` is
absent, no matter which corroborating cookies are present (`cs` is
arbitrary), and the computed confidence equals 1 exactly when all four
signal cookies — the primary token `li_at` plus the corroborating `li_a`,
`JSESSIONID` and `bcookie` — are present with truthy values. -/
theorem session_extraction_primary_token (cs : List Cookie) :
    (findCookie cs "li_at" = Option.none →
      (validateFullSession cs).valid = false ∧
      (validateFullSession cs).reason = some "Missing li_at cookie" ∧
      (extractSessionAndComplete cs).1
        = Except.error "Failed to extract li_at session cookie") ∧
    (∀ q : ℚ, (validateFullSession cs).confidence = some q →
      (q = 1 ↔ (cookieTruthy cs "li_at" = true ∧ cookieTruthy cs "li_a" = true ∧
        cookieTruthy cs "JSESSIONID" = true ∧ cookieTruthy cs "bcookie" = true))) := by
  constructor
  · intro h
    refine ⟨?_, ?_, ?_⟩ <;> simp [validateFullSession, extractSessionAndComplete, h]
  · intro q hq
    cases hfind : findCookie cs "li_at" with
    | none =>
      rw [validateFullSession] at hq
      rw [hfind] at hq
      simp at hq
    | some c =>
      by_cases hv : c.value = ""
      · rw [validateFullSession] at hq
        rw [hfind] at hq
        simp [hv] at hq
      · have hli : cookieTruthy cs "li_at" = true := by
          simp [cookieTruthy, truthyOpt, hfind, bne_iff_ne, hv]
        rw [validateFullSession] at hq
        rw [hfind] at hq
        simp only [hv, if_false] at hq
        rw [Option.some_inj] at hq
        subst hq
        cases hb1 : cookieTruthy cs "li_a" <;>
          cases hb2 : cookieTruthy cs "JSESSIONID" <;>
            cases hb3 : cookieTruthy cs "bcookie" <;>
              simp [hli, hb1, hb2, hb3, List.countP_cons, List.countP_nil] <;>
                norm_num

/-- Witness for C5 at a concrete jar holding all three corroborating
cookies but no `li_at`. -/
theorem session_extraction_primary_token_witness :
    (validateFullSession csNoLiAt).valid = false ∧
    (validateFullSession csNoLiAt).reason = some "Missing li_at cookie" ∧
    (extractSessionAndComplete csNoLiAt).1
      = Except.error "Failed to extract li_at session cookie" :=
  (session_extraction_primary_token csNoLiAt).1 (by decide)

set_option maxHeartbeats 2000000 in
/-- C6: the remote-session connector fails immediately (single attempt, no
sleep) when the connection error is a 403/Forbidden authorization error or
a 404/not-found error; transient failures are retried up to the fixed
bound of 3 attempts, with an exponential-backoff sleep between attempts of
`connSleepMs a = 2^a * 2000` milliseconds (4 s then 8 s — base 2 s,
doubling per attempt). -/
theorem connector_retry_policy
    (envA envB : ConnEnv) (m m1 m2 m3 : String)
    (hA : envA.attemptOutcome 1 = Except.error m)
    (hAfatal : (strIncludes m "403" || strIncludes m "Forbidden") = true ∨
               (strIncludes m "404" || strIncludes m "not found") = true)
    (hB1 : envB.attemptOutcome 1 = Except.error m1)
    (hB2 : envB.attemptOutcome 2 = Except.error m2)
    (hB3 : envB.attemptOutcome 3 = Except.error m3)
    (ht1 : (strIncludes m1 "403" || strIncludes m1 "Forbidden") = false ∧
           (strIncludes m1 "404" || strIncludes m1 "not found") = false ∧
           isRetryableMsg m1 = true)
    (ht2 : (strIncludes m2 "403" || strIncludes m2 "Forbidden") = false ∧
           (strIncludes m2 "404" || strIncludes m2 "not found") = false ∧
           isRetryableMsg m2 = true)
    (ht3 : (strIncludes m3 "403" || strIncludes m3 "Forbidden") = false ∧
           (strIncludes m3 "404" || strIncludes m3 "not found") = false ∧
           isRetryableMsg m3 = true) :
    ((∃ e, (startGoLoginProfile envA).1 = Except.error e) ∧
      (startGoLoginProfile envA).2 = [Act.attempt 1]) ∧
    ((startGoLoginProfile envB).1 = Except.error m3 ∧
      (startGoLoginProfile envB).2
        = [Act.attempt 1, Act.sleep 4000, Act.attempt 2, Act.sleep 8000,
           Act.attempt 3]) ∧
    (∀ a, connSleepMs (a+1) = 2 * connSleepMs a) := by
  refine ⟨?_, ?_, ?_⟩
  · unfold startGoLoginProfile
    unfold connectAttempts
    rw [hA]
    by_cases h1 : (strIncludes m "403" || strIncludes m "Forbidden") = true
    · simp [h1]
    · simp only [Bool.not_eq_true] at h1
      have h404 : (strIncludes m "404" || strIncludes m "not found") = true := by
        rcases hAfatal with h | h
        · rw [h1] at h; cases h
        · exact h
      simp [h1, h404]
  · have c1 : connectAttempts envB 1 3 m2 = (Except.error m3, [Act.attempt 3]) := by
      unfold connectAttempts
      rw [hB3]
      simp [ht3.1, ht3.2.1, ht3.2.2]
    have c2 : connectAttempts envB 2 2 m1
        = (Except.error m3,
           [Act.attempt 2, Act.sleep (connSleepMs 2), Act.attempt 3]) := by
      unfold connectAttempts
      rw [hB2]
      simp [ht2.1, ht2.2.1, ht2.2.2, c1]
    have c3 : connectAttempts envB 3 1 ""
        = (Except.error m3,
           [Act.attempt 1, Act.sleep (connSleepMs 1), Act.attempt 2,
            Act.sleep (connSleepMs 2), Act.attempt 3]) := by
      unfold connectAttempts
      rw [hB1]
      simp [ht1.1, ht1.2.1, ht1.2.2, c2]
    unfold startGoLoginProfile
    rw [c3]
    have s1 : connSleepMs 1 = 4000 := rfl
    have s2 : connSleepMs 2 = 8000 := rfl
    rw [s1, s2]
    exact ⟨rfl, rfl⟩
  · intro a
    simp [connSleepMs, Nat.pow_succ]
    ring

/-- Witness for C6: a constant 403 error aborts after one attempt; a
constant ECONNRESET error exhausts the three attempts with the 4 s and 8 s
backoff sleeps. -/
theorem connector_retry_policy_witness :
    ((∃ e, (startGoLoginProfile connEnvFatal).1 = Except.error e) ∧
      (startGoLoginProfile connEnvFatal).2 = [Act.attempt 1]) ∧
    ((startGoLoginProfile connEnvTransient).1 = Except.error "ECONNRESET" ∧
      (startGoLoginProfile connEnvTransient).2
        = [Act.attempt 1, Act.sleep 4000, Act.attempt 2, Act.sleep 8000,
           Act.attempt 3]) ∧
    (∀ a, connSleepMs (a+1) = 2 * connSleepMs a) :=
  connector_retry_policy connEnvFatal connEnvTransient
    "403 Forbidden" "ECONNRESET" "ECONNRESET" "ECONNRESET"
    rfl (Or.inl (by decide)) rfl rfl rfl
    ⟨by decide, by decide, by decide⟩
    ⟨by decide, by decide, by decide⟩
    ⟨by decide, by decide, by decide⟩

/-- Finding a cookie in an appended jar succeeds when it is in the second
part. -/
theorem findCookie_append_isSome (l1 l2 : List Cookie) (n : String)
    (h : (findCookie l2 n).isSome = true) :
    (findCookie (l1 ++ l2) n).isSome = true := by
  induction l1 with
  | nil => simpa using h
  | cons c cs ih =>
    by_cases hc : (c.name == n) = true
    · simp [findCookie, List.find?_cons_of_pos, hc]
    · have hstep : findCookie ((c :: cs) ++ l2) n = findCookie (cs ++ l2) n := by
        simp only [Bool.not_eq_true] at hc
        simp [findCookie, List.find?_cons_of_neg, hc]
      rw [hstep]
      exact ih

/-- When the primary cookie is present, extraction succeeds and performs
exactly the state update and the session save. -/
theorem extract_ok_of_li_at (ctx : List Cookie)
    (h : (findCookie ctx "li_at").isSome = true) :
    (∃ r, (extractSessionAndComplete ctx).1 = Except.ok r) ∧
    (extractSessionAndComplete ctx).2
      = [Act.updateState "extracting_profile", Act.saveSession] := by
  unfold extractSessionAndComplete
  cases hf : findCookie ctx "li_at" with
  | none => rw [hf] at h; simp at h
  | some c => simp

/-- Every branch of the credential phase performs the navigation to the
login page. -/
theorem credentialPhase_goto_login (payload : Payload) (ctx : List Cookie)
    (tpre : List Act) (env : LoginEnv) :
    Act.goto "https://www.linkedin.com/login"
      ∈ (credentialPhase payload ctx tpre env).2 := by
  unfold credentialPhase
  by_cases hv : verifyLogin env.pageAfterLoginNav = true
  · simp [hv]
  · simp only [Bool.not_eq_true] at hv
    simp only [hv, Bool.false_eq_true, if_false]
    cases he : payload.email <;> cases hp : payload.password
    · simp [*]
    · simp [*]
    · simp [*]
    · simp [*]
      left
      split <;> simp

/-- C7: when the payload supplies a reusable session token and the
cookie-based restore reaches an authenticated landing state, the login run
returns a session artifact without ever typing into a credential field;
when the restore fails to verify, the run falls through to the full
credential path (it navigates to the login page) rather than failing. -/
theorem cookie_restore_skips_credentials
    (payload : Payload) (ctx0 : List Cookie) (env : LoginEnv) (v : String)
    (hu : payload.useCookies = true) (hc : payload.liAtCookie = some v) :
    (verifyLogin env.pageAfterCookieNav = true →
      (∃ r, (handleLinkedInLogin payload ctx0 env).1 = Except.ok r) ∧
      (handleLinkedInLogin payload ctx0 env).2.any isCredTyping = false) ∧
    (verifyLogin env.pageAfterCookieNav = false →
      Act.goto "https://www.linkedin.com/login"
        ∈ (handleLinkedInLogin payload ctx0 env).2) := by
  cases hla : payload.liACookie with
  | none =>
    have hsome : (findCookie (ctx0 ++ [Cookie.mk "li_at" v]) "li_at").isSome
        = true := by
      apply findCookie_append_isSome
      simp [findCookie]
    obtain ⟨⟨r, hr⟩, hte⟩ := extract_ok_of_li_at (ctx0 ++ [Cookie.mk "li_at" v]) hsome
    constructor
    · intro hv
      constructor
      · exact ⟨r, by simp [handleLinkedInLogin, hu, hc, hla, hv, hr]⟩
      · simp [handleLinkedInLogin, hu, hc, hla, hv, hte, isCredTyping]
    · intro hv
      simp [handleLinkedInLogin, hu, hc, hla, hv]
      simpa using credentialPhase_goto_login payload (ctx0 ++ [Cookie.mk "li_at" v]) _ env
  | some a =>
    have hsome : (findCookie (ctx0 ++ [Cookie.mk "li_at" v, Cookie.mk "li_a" a])
        "li_at").isSome = true := by
      apply findCookie_append_isSome
      simp [findCookie]
    obtain ⟨⟨r, hr⟩, hte⟩ :=
      extract_ok_of_li_at (ctx0 ++ [Cookie.mk "li_at" v, Cookie.mk "li_a" a]) hsome
    constructor
    · intro hv
      constructor
      · exact ⟨r, by simp [handleLinkedInLogin, hu, hc, hla, hv, hr]⟩
      · simp [handleLinkedInLogin, hu, hc, hla, hv, hte, isCredTyping]
    · intro hv
      simp [handleLinkedInLogin, hu, hc, hla, hv]
      simpa using credentialPhase_goto_login payload
        (ctx0 ++ [Cookie.mk "li_at" v, Cookie.mk "li_a" a]) _ env

/-- Witness for C7: the cookie-only payload restored onto the feed page
yields an artifact with no credential typing. -/
theorem cookie_restore_skips_credentials_witness :
    (∃ r, (handleLinkedInLogin cookieOnlyPayload [] cookieRestoreEnv).1
      = Except.ok r) ∧
    (handleLinkedInLogin cookieOnlyPayload [] cookieRestoreEnv).2.any
      isCredTyping = false :=
  (cookie_restore_skips_credentials cookieOnlyPayload [] cookieRestoreEnv "tok"
    rfl rfl).1 (by decide)

/-- Every exit of the CAPTCHA polling loop — navigation away, markers
gone, or fuel exhausted (timeout) — ends by publishing `none`, clearing
the screenshot. -/
theorem captchaLoop_ends_with_clear (env : CapEnv) (fuel : Nat) :
    ∀ i, ∃ t, (captchaLoop env fuel i).2 = t ++ [Act.publishShot Option.none] := by
  induction fuel with
  | zero => intro i; exact ⟨[], rfl⟩
  | succ n ih =>
    intro i
    by_cases h1 : (strIncludes (strToLower (env.pageAt i).url) "/feed"
        || strIncludes (strToLower (env.pageAt i).url) "/mynetwork"
        || strIncludes (strToLower (env.pageAt i).url) "/in/") = true
    · exact ⟨[], by simp [captchaLoop, h1]⟩
    · simp only [Bool.not_eq_true] at h1
      by_cases h2 : (!(captchaStillPresent (env.pageAt i))
          && !(strIncludes (strToLower (env.pageAt i).url) "checkpoint")
          && !(strIncludes (strToLower (env.pageAt i).url) "challenge")) = true
      · exact ⟨[], by simp [captchaLoop, h1, h2]⟩
      · simp only [Bool.not_eq_true] at h2
        obtain ⟨t, ht⟩ := ih (i+1)
        refine ⟨(if env.refreshAt i && env.refreshShotOk i then
            [Act.publishShot (some "screenshot")] else []) ++ t, ?_⟩
        simp [captchaLoop, h1, h2, ht, List.append_assoc]

/-- C8: the CAPTCHA relay clears the published screenshot (publishes
`none` to the external store) as the last action of every run of
`waitForCaptchaSolved` — whether the loop exits because the CAPTCHA was
detected as solved (navigation away or all markers absent) or because the
timeout elapsed — so no stale screenshot persists after it returns. -/
theorem captcha_relay_always_clears (env : CapEnv) (fuel : Nat) :
    ∃ t, (waitForCaptchaSolved env fuel).2 = t ++ [Act.publishShot Option.none] := by
  obtain ⟨t, ht⟩ := captchaLoop_ends_with_clear env fuel 0
  unfold waitForCaptchaSolved
  refine ⟨([Act.updateState "awaiting_captcha"]
    ++ (if env.initShotOk then [Act.publishShot (some "screenshot")] else []))
    ++ t, ?_⟩
  simp [ht, List.append_assoc]

/-- C9: whenever a browser connection was acquired, `processAction`
releases it (the close of the remote connection is the final action) on
every exit path: successful handler result, handler error in any login
state, or an unknown action type. -/
theorem processAction_always_releases (a : ActionRec) (env : ProcEnv)
    (pid : String) (hp : a.profileId = some pid)
    (hc : env.connectOutcome = Except.ok ()) :
    (processAction a env).2.getLast? = some Act.closeBrowser := by
  by_cases hk : knownActionType a.actionType = true
  · simp [processAction, hp, hc, hk, List.getLast?_concat]
  · simp only [Bool.not_eq_true] at hk
    simp [processAction, hp, hc, hk, List.getLast?_concat]

/-- Witness for C9 at a concrete login action with a successful
connection. -/
theorem processAction_always_releases_witness :
    (processAction loginActionRec okProcEnv).2.getLast? = some Act.closeBrowser :=
  processAction_always_releases loginActionRec okProcEnv "p1" rfl rfl
